import Mathlib

/-!
Verification development for the lockedin productivity client.

The embedding below mirrors the two core components of the repository:

* the Pomodoro session state machine of `src/contexts/PomodoroContext.tsx`
  (settings, state, recovery from a persisted snapshot, the per-second tick,
  user operations and the timer-completion transition), and
* the attention scoring engine of `src/hooks/useAnalytics.ts` (the `useFocus`
  hook: tracker state, `calculateFocusScore`, the 2-second scoring tick,
  `startTracking`/`stopTracking` and `detectDistractions`).

JavaScript numbers are modelled as `Int` where the code only produces values
that are exact in floating point at these magnitudes, and as `Rat` for the
score accumulator, which mixes exact integers with small exact divisions;
`Math.floor` of a division is `Int.fdiv`, `Math.round x` is `⌊x + 1/2⌋`, and
the JavaScript `%` operator is `Int.tmod`.
-/

namespace LockedIn

/-! ## Data model of the session state machine (`PomodoroContext.tsx`) -/

/-- Mirror of `PomodoroSettings` (all durations in whole minutes). -/
structure PomodoroSettings where
  focusDuration : Int
  breakDuration : Int
  longBreakDuration : Int
  longBreakInterval : Int
deriving Repr, DecidableEq

/-- Mirror of `DEFAULT_SETTINGS`. -/
def DEFAULT_SETTINGS : PomodoroSettings :=
  { focusDuration := 25, breakDuration := 5, longBreakDuration := 15, longBreakInterval := 4 }

/-- Mirror of `PomodoroState` (`timeLeft` in seconds). -/
structure PomodoroState where
  isRunning : Bool
  isFocus : Bool
  timeLeft : Int
  sessionCount : Int
  settings : PomodoroSettings
deriving Repr, DecidableEq

/-- The default initial state built at the end of the `useState` initializer
when no snapshot is persisted. -/
def initState : PomodoroState :=
  { isRunning := false
    isFocus := true
    timeLeft := DEFAULT_SETTINGS.focusDuration * 60
    sessionCount := 0
    settings := DEFAULT_SETTINGS }

/-- A partial settings update, mirror of `Partial<PomodoroSettings>`:
`none` models an absent field of the update object. -/
structure SettingsPatch where
  focusDuration : Option Int
  breakDuration : Option Int
  longBreakDuration : Option Int
  longBreakInterval : Option Int
deriving Repr, DecidableEq

/-- JavaScript truthiness of `newSettings.focusDuration`: an absent field and
the number `0` are falsy, every other number is truthy. -/
def truthy : Option Int → Bool
  | none => false
  | some n => n != 0

/-- Object spread `{ ...state.settings, ...newSettings }`. -/
def mergeSettings (s : PomodoroSettings) (p : SettingsPatch) : PomodoroSettings :=
  { focusDuration := p.focusDuration.getD s.focusDuration
    breakDuration := p.breakDuration.getD s.breakDuration
    longBreakDuration := p.longBreakDuration.getD s.longBreakDuration
    longBreakInterval := p.longBreakInterval.getD s.longBreakInterval }

/-- Mirror of `updateSettings` (lines 154-166): merge the supplied fields,
force `isRunning := false`, and resize `timeLeft` to the new focus duration
exactly when the update carries a truthy `focusDuration`. -/
def updateSettings (s : PomodoroState) (p : SettingsPatch) : PomodoroState :=
  { s with
    settings := mergeSettings s.settings p
    isRunning := false
    timeLeft :=
      match p.focusDuration with
      | some d => if d != 0 then d * 60 else s.timeLeft
      | none => s.timeLeft }

/-- The completed-session record built inside `handleTimerComplete`
(lines 176-186) and sent to `storePomodoroSession`; the source hardcodes
`focusScore: 0` (marked `TODO: Get from focus tracking`). -/
structure SessionRecord where
  sessionType : String
  duration : Int
  completed : Bool
  focusScore : Int
deriving Repr, DecidableEq

/-- Mirror of the record constructed in `handleTimerComplete`. -/
def sessionRecord (s : PomodoroState) : SessionRecord :=
  { sessionType := if s.isFocus then "focus" else "break"
    duration := if s.isFocus then s.settings.focusDuration else s.settings.breakDuration
    completed := true
    focusScore := 0 }

/-- Mirror of the state change performed by `handleTimerComplete`
(lines 168-219): stop the timer, then switch to the next session type.
Completing Focus increments `sessionCount` and enters Break with
`timeLeft = breakDuration * 60`; completing Break enters Focus with
`timeLeft` taken from the long-break calculation
(`sessionCount > 0 && sessionCount % longBreakInterval === 0`). -/
def handleTimerComplete (s : PomodoroState) : PomodoroState :=
  if s.isFocus then
    { s with
      isRunning := false
      isFocus := false
      timeLeft := s.settings.breakDuration * 60
      sessionCount := s.sessionCount + 1 }
  else
    let shouldLongBreak :=
      decide (0 < s.sessionCount) && (s.sessionCount.tmod s.settings.longBreakInterval == 0)
    let nextDuration :=
      if shouldLongBreak then s.settings.longBreakDuration else s.settings.breakDuration
    { s with
      isRunning := false
      isFocus := true
      timeLeft := nextDuration * 60 }

/-- Mirror of `calculateRemainingTime` (lines 78-92) in the case where the
saved timestamp is present: elapsed seconds are
`Math.floor((now - savedAt) / 1000)` and the result is clamped below at 0.
A non-running saved state keeps its `timeLeft`. -/
def calculateRemainingTime (savedState : PomodoroState) (savedAt now : Int) : Int :=
  if !savedState.isRunning then savedState.timeLeft
  else max 0 (savedState.timeLeft - (now - savedAt).fdiv 1000)

/-- Mirror of the `useState` initializer's recovery branch (lines 44-58):
recompute `timeLeft` from the elapsed wall-clock time and keep `isRunning`
only when the recovered `timeLeft` is positive. -/
def recoverState (p : PomodoroState) (savedAt now : Int) : PomodoroState :=
  let calculatedTimeLeft := calculateRemainingTime p savedAt now
  { p with
    isRunning := p.isRunning && decide (0 < calculatedTimeLeft)
    timeLeft := calculatedTimeLeft }

/-- Mirror of the completion effect (lines 222-226): `handleTimerComplete`
runs exactly when `!state.isRunning && state.timeLeft === 0`. -/
def completionEffect (s : PomodoroState) : PomodoroState :=
  if s.isRunning = false ∧ s.timeLeft = 0 then handleTimerComplete s else s

/-- Mirror of `startTimer` (lines 115-126): only acts when not running. -/
def startTimer (s : PomodoroState) : PomodoroState :=
  if s.isRunning then s else { s with isRunning := true }

/-- Mirror of `pauseTimer` (lines 128-136): only acts when running. -/
def pauseTimer (s : PomodoroState) : PomodoroState :=
  if s.isRunning then { s with isRunning := false } else s

/-- Mirror of `resetTimer` (lines 138-148): stop and reload the duration of
the current session type (`focusDuration` in Focus, `breakDuration` in
Break). -/
def resetTimer (s : PomodoroState) : PomodoroState :=
  { s with
    isRunning := false
    timeLeft := (if s.isFocus then s.settings.focusDuration else s.settings.breakDuration) * 60 }

/-- One firing of the 1-second interval body (lines 258-267), which only
exists while `isRunning`: at `timeLeft <= 1` the timer finishes
(`timeLeft := 0`, `isRunning := false`), otherwise decrement. -/
def tickSecond (s : PomodoroState) : PomodoroState :=
  if s.isRunning then
    if s.timeLeft ≤ 1 then { s with timeLeft := 0, isRunning := false }
    else { s with timeLeft := s.timeLeft - 1 }
  else s

/-- The operations of the session state machine named by the claims.
`recover elapsedMs` is start-up recovery with the given (possibly negative,
for clock skew) elapsed wall-clock milliseconds; `complete` is the
completion effect. -/
inductive Op where
  | start : Op
  | pause : Op
  | reset : Op
  | skip : Op
  | tick : Op
  | update : SettingsPatch → Op
  | recover : Int → Op
  | complete : Op
deriving Repr, DecidableEq

/-- Interpreter for one operation. `skip` invokes the completion transition
directly, as `skipSession` does. -/
def applyOp (s : PomodoroState) : Op → PomodoroState
  | .start => startTimer s
  | .pause => pauseTimer s
  | .reset => resetTimer s
  | .skip => handleTimerComplete s
  | .tick => tickSecond s
  | .update p => updateSettings s p
  | .recover e => recoverState s 0 e
  | .complete => completionEffect s

/-- Run a sequence of operations from a state. -/
def runOps (s : PomodoroState) (ops : List Op) : PomodoroState :=
  ops.foldl applyOp s

/-- An optional field value is positive when present. -/
def posOpt : Option Int → Bool
  | none => true
  | some x => decide (0 < x)

/-- A settings update that carries only positive values. -/
def patchPos (p : SettingsPatch) : Bool :=
  posOpt p.focusDuration && posOpt p.breakDuration &&
    posOpt p.longBreakDuration && posOpt p.longBreakInterval

/-- An operation is valid when any settings update it carries is positive. -/
def opValid : Op → Bool
  | .update p => patchPos p
  | _ => true

/-- All three duration settings are positive. -/
def SettingsPos (st : PomodoroSettings) : Prop :=
  0 < st.focusDuration ∧ 0 < st.breakDuration ∧ 0 < st.longBreakDuration

/-- Machine invariant used for the reachability proofs: positive durations
and a non-negative countdown. -/
def Inv (s : PomodoroState) : Prop :=
  SettingsPos s.settings ∧ 0 ≤ s.timeLeft

/-! ## Data model of the attention scoring engine (`useAnalytics.ts`, `useFocus`) -/

/-- One per-tick metric, the behavioural fields of `FocusMetrics` built in
the tracking interval body (lines 788-797). -/
structure FocusMetric where
  attentionScore : Int
  eyeContact : Bool
  posture : String
  distractionCount : Int
deriving Repr, DecidableEq

/-- The mutable refs and React state of the `useFocus` hook:
`intervalActive` models `trackingIntervalRef.current !== null` and
`listenersRegistered` models the seven document/window listeners added by
`startTracking` (they are added and removed together). Timestamps are epoch
milliseconds. -/
structure TrackerState where
  isTracking : Bool
  focusScore : Int
  intervalActive : Bool
  listenersRegistered : Bool
  sessionId : Option Int
  lastActivityAt : Int
  mouseMovements : List Int
  keyPresses : List Int
  clicks : List Int
  scrolls : List Int
  idleTimeMs : Int
  pageVisible : Bool
  windowFocused : Bool
  metrics : List FocusMetric
deriving Repr, DecidableEq

/-- Hook state at mount: nothing tracked yet, score 0, page visible and
window focused, `lastActivityRef` initialised to the mount time. -/
def trackerInit (mountedAt : Int) : TrackerState :=
  { isTracking := false
    focusScore := 0
    intervalActive := false
    listenersRegistered := false
    sessionId := none
    lastActivityAt := mountedAt
    mouseMovements := []
    keyPresses := []
    clicks := []
    scrolls := []
    idleTimeMs := 0
    pageVisible := true
    windowFocused := true
    metrics := [] }

/-- Shared body of the four activity handlers (`handleMouseMove`,
`handleKeyPress`, `handleClick`, `handleScroll`): refresh `lastActivityRef`,
push the timestamp, clear the idle counter and prune to the trailing
5-minute window. -/
def recordActivity (now : Int) (events : List Int) : List Int :=
  (events ++ [now]).filter (fun t => now - t < 300000)

/-- The kinds of environment events consumed by the tracker. -/
inductive ActivityKind where
  | mouseMove : ActivityKind
  | keyPress : ActivityKind
  | click : ActivityKind
  | scroll : ActivityKind
deriving Repr, DecidableEq

/-- Dispatch of one activity event to its handler. -/
def handleActivity (k : ActivityKind) (now : Int) (s : TrackerState) : TrackerState :=
  let s := { s with lastActivityAt := now, idleTimeMs := 0 }
  match k with
  | .mouseMove => { s with mouseMovements := recordActivity now s.mouseMovements }
  | .keyPress => { s with keyPresses := recordActivity now s.keyPresses }
  | .click => { s with clicks := recordActivity now s.clicks }
  | .scroll => { s with scrolls := recordActivity now s.scrolls }

/-- `handleVisibilityChange` / `handleWindowFocus` / `handleWindowBlur`. -/
def setVisibility (v : Bool) (s : TrackerState) : TrackerState :=
  { s with pageVisible := v }

/-- Window focus / blur handler pair. -/
def setWindowFocus (f : Bool) (s : TrackerState) : TrackerState :=
  { s with windowFocused := f }

/-- `Math.round` on an exact rational: `⌊x + 1/2⌋`. -/
def jsRound (q : ℚ) : Int := ⌊q + 1 / 2⌋

/-- Mirror of `calculateFocusScore` (lines 608-687).  The accumulator starts
at 100 and the nine adjustments are applied in source order; the result is
`Math.max(0, Math.min(100, Math.round(score)))`. -/
def calculateFocusScore (now : Int) (s : TrackerState) : Int :=
  let timeSinceLastActivity : Int := now - s.lastActivityAt
  let recentMouseMovements := s.mouseMovements.filter (fun t => now - t < 30000)
  let recentKeyPresses := s.keyPresses.filter (fun t => now - t < 30000)
  let recentClicks := s.clicks.filter (fun t => now - t < 30000)
  let recentScrolls := s.scrolls.filter (fun t => now - t < 30000)
  let shortMouseMovements := s.mouseMovements.filter (fun t => now - t < 10000)
  let shortKeyPresses := s.keyPresses.filter (fun t => now - t < 10000)
  let score0 : ℚ := 100
  let score1 := if s.pageVisible then score0 else score0 - 50
  let score2 := if s.windowFocused then score1 else score1 - 35
  let score3 :=
    if 15000 < timeSinceLastActivity then
      score2 - min 30 (((timeSinceLastActivity : ℚ) - 15000) / 1000 * 2)
    else score2
  let totalRecentActivity : ℚ :=
    ((recentMouseMovements.length + recentKeyPresses.length +
      recentClicks.length + recentScrolls.length : ℕ) : ℚ)
  let activityTypes : ℚ :=
    (([decide (recentMouseMovements.length > 0), decide (recentKeyPresses.length > 0),
       decide (recentClicks.length > 0), decide (recentScrolls.length > 0)].count true : ℕ) : ℚ)
  let score4 := if 2 ≤ activityTypes then score3 + min 15 (activityTypes * 5) else score3
  let score5 := if 10 ≤ totalRecentActivity then score4 + min 10 (totalRecentActivity / 5) else score4
  let shortTermActivity : ℚ := ((shortMouseMovements.length + shortKeyPresses.length : ℕ) : ℚ)
  let score6 := if 0 < shortTermActivity then score5 + min 8 shortTermActivity else score5
  let score7 :=
    if 45000 < s.idleTimeMs then score6 - min 25 ((s.idleTimeMs : ℚ) / 45000 * 15)
    else score6
  let score8 :=
    if 100 < totalRecentActivity then score7 - min 15 ((totalRecentActivity - 100) / 20)
    else score7
  let activityRate := totalRecentActivity / 30
  let score9 := if 3 / 10 ≤ activityRate ∧ activityRate ≤ 2 then score8 + 5 else score8
  max 0 (min 100 (jsRound score9))

/-- Mirror of `startTracking` (lines 690-824): a no-op while already
tracking, otherwise resets the activity refs, registers the listeners and
starts the 2-second interval.  `now` is `Date.now()` at the call
(`sessionIdRef` stores the timestamp-derived id). -/
def startTracking (now : Int) (s : TrackerState) : TrackerState :=
  if s.isTracking then s
  else
    { s with
      isTracking := true
      intervalActive := true
      listenersRegistered := true
      sessionId := some now
      lastActivityAt := now
      mouseMovements := []
      keyPresses := []
      clicks := []
      scrolls := []
      idleTimeMs := 0 }

/-- Mirror of the 2-second interval body (lines 777-805): publish the score
computed from the current refs, then add 2 seconds to the idle counter when
the last activity is more than 5 seconds old, then append the new metric,
keeping the last 100. -/
def trackerTick (now : Int) (s : TrackerState) : TrackerState :=
  let currentScore := calculateFocusScore now s
  let m : FocusMetric :=
    { attentionScore := currentScore
      eyeContact := decide (70 < currentScore) && s.pageVisible
      posture := if 80 < currentScore then "good" else if 50 < currentScore then "fair" else "poor"
      distractionCount := (100 - currentScore).fdiv 25 }
  { s with
    focusScore := currentScore
    idleTimeMs :=
      if 5000 < now - s.lastActivityAt then s.idleTimeMs + 2000 else s.idleTimeMs
    metrics := (s.metrics.drop (s.metrics.length - 99)) ++ [m] }

/-- Mirror of `stopTracking` (lines 827-853): cancel the interval and its
listener cleanup when one is pending, then reset every counter and the live
score.  `now` is `Date.now()` at the call (`lastActivityRef` is reset to
it). -/
def stopTracking (now : Int) (s : TrackerState) : TrackerState :=
  let s1 :=
    if s.intervalActive then { s with listenersRegistered := false, intervalActive := false }
    else s
  { s1 with
    isTracking := false
    sessionId := none
    lastActivityAt := now
    mouseMovements := []
    keyPresses := []
    clicks := []
    scrolls := []
    idleTimeMs := 0
    pageVisible := true
    windowFocused := true
    focusScore := 0 }

/-- Mirror of `detectDistractions` (lines 868-912): the qualitative flags in
push order. -/
def detectDistractions (now : Int) (s : TrackerState) : List String :=
  let recentMouse := s.mouseMovements.filter (fun t => now - t < 10000)
  let recentClicks := s.clicks.filter (fun t => now - t < 30000)
  let recentKeys := s.keyPresses.filter (fun t => now - t < 30000)
  let totalActivity := recentMouse.length + recentClicks.length + recentKeys.length
  (if s.pageVisible then [] else ["Tab not visible"]) ++
  (if s.windowFocused then [] else ["Window not in focus"]) ++
  (if 20000 < now - s.lastActivityAt then ["No recent activity"] else []) ++
  (if 90000 < s.idleTimeMs then ["Extended idle period"] else []) ++
  (if 60 < recentMouse.length then ["Excessive mouse activity"] else []) ++
  (if 20 < recentClicks.length then ["Rapid clicking detected"] else []) ++
  (if totalActivity < 3 ∧ now - s.lastActivityAt < 60000 then ["Very low engagement"] else [])

/-! ## Scenario states used by individual claims -/

/-- The state just before the 4th Focus completion of a run with the default
settings (`longBreakInterval = 4`): three focus sessions already completed,
the fourth Focus countdown has expired. -/
def fourthFocusState : PomodoroState :=
  { initState with isFocus := true, sessionCount := 3, isRunning := true, timeLeft := 0 }

/-- The state just before a Break completion at `sessionCount = 4` with the
default settings, the moment at which the long-break calculation
(`sessionCount > 0 && sessionCount % longBreakInterval === 0`) is true. -/
def fourthBreakState : PomodoroState :=
  { initState with isFocus := false, sessionCount := 4, isRunning := true, timeLeft := 0 }

/-- Scenario of claim C8: tracking starts at time 0 with the page visible
and the window focused, no activity event of any kind ever arrives, and the
2-second scoring tick fires 50 times, through simulated second 100. -/
def c8State : TrackerState :=
  (List.range 50).foldl (fun st k => trackerTick (2000 * ((k : Int) + 1)) st)
    (startTracking 0 (trackerInit 0))

/-! ## Claim theorems -/

/-- C1: the spec claims the 4th, 8th, 12th… Focus→Break completion sets the
entered Break phase's countdown from `longBreakDuration`.  The code's focus
branch of `handleTimerComplete` always uses `breakDuration`: at the 4th
Focus completion (`sessionCount` becomes 4, interval 4, defaults) the
entered Break phase receives `breakDuration * 60 = 300` seconds, not
`longBreakDuration * 60 = 900`. -/
theorem c1_fourth_focus_completion_gets_short_break :
    (handleTimerComplete fourthFocusState).isFocus = false ∧
    (handleTimerComplete fourthFocusState).sessionCount = 4 ∧
    (handleTimerComplete fourthFocusState).timeLeft = DEFAULT_SETTINGS.breakDuration * 60 ∧
    (handleTimerComplete fourthFocusState).timeLeft ≠ DEFAULT_SETTINGS.longBreakDuration * 60 := by
  decide

/-- C4: the spec claims the long-break calculation evaluated at a Break
completion does not determine the `timeLeft` of that Break→Focus
transition.  In the code it is exactly what determines it: completing a
Break at `sessionCount = 4` (defaults) enters Focus with
`timeLeft = longBreakDuration * 60 = 900`, not the focus duration's 1500,
and the following Focus→Break completion ignores the calculation. -/
theorem c4_break_completion_applies_long_break_calc_to_focus :
    (handleTimerComplete fourthBreakState).isFocus = true ∧
    (handleTimerComplete fourthBreakState).timeLeft = DEFAULT_SETTINGS.longBreakDuration * 60 ∧
    (handleTimerComplete fourthBreakState).timeLeft ≠ DEFAULT_SETTINGS.focusDuration * 60 ∧
    (handleTimerComplete { handleTimerComplete fourthBreakState with isRunning := true, timeLeft := 0 }).timeLeft
      = DEFAULT_SETTINGS.breakDuration * 60 := by
  decide

/-- C5: the spec claims the completed-session record carries the attention
score available from the scoring engine while tracking is active, and 0
only when tracking is not active.  The record built in `handleTimerComplete`
hardcodes `focusScore: 0` (marked `TODO: Get from focus tracking`), so even
in a run where the scoring engine is tracking and its live score is 80, the
emitted record carries 0. -/
theorem c5_session_record_score_is_hardcoded_zero :
    (sessionRecord fourthFocusState).focusScore = 0 ∧
    (sessionRecord fourthFocusState).sessionType = "focus" ∧
    (80 : Int) ≠ 0 := by
  decide

/-- C6 counterexample: `updateSettings` performs no validation, so a
non-positive value supplied for a field is not rejected: updating the
default state with `breakDuration = -3` leaves the settings with the
non-positive value `-3` instead of the previous value 5. -/
theorem c6_counterexample_nonpositive_value_accepted :
    initState.settings.breakDuration = 5 ∧
    (updateSettings initState
      { focusDuration := none, breakDuration := some (-3),
        longBreakDuration := none, longBreakInterval := none }).settings.breakDuration = -3 ∧
    ¬(0 < (updateSettings initState
      { focusDuration := none, breakDuration := some (-3),
        longBreakDuration := none, longBreakInterval := none }).settings.breakDuration) := by
  decide

/-- C6 amended: `updateSettings` merges every supplied field value
unconditionally (non-positive values included); a field keeps its previous
value exactly when the update does not supply it.  The call is a total
state update and never throws. -/
theorem c6_amended_update_merges_each_field_unconditionally
    (s : PomodoroState) (p : SettingsPatch) :
    (updateSettings s p).settings.focusDuration = p.focusDuration.getD s.settings.focusDuration ∧
    (updateSettings s p).settings.breakDuration = p.breakDuration.getD s.settings.breakDuration ∧
    (updateSettings s p).settings.longBreakDuration
      = p.longBreakDuration.getD s.settings.longBreakDuration ∧
    (updateSettings s p).settings.longBreakInterval
      = p.longBreakInterval.getD s.settings.longBreakInterval :=
  ⟨rfl, rfl, rfl, rfl⟩

/-- C10: an `updateSettings` call whose partial update does not contain
`focusDuration` leaves `timeLeft` unchanged (also when break durations
change during a Break phase), forces `running = false`, and changes no
state field other than `settings` and `running`. -/
theorem c10_update_without_focus_duration_is_frame
    (s : PomodoroState) (p : SettingsPatch) (h : p.focusDuration = none) :
    (updateSettings s p).timeLeft = s.timeLeft ∧
    (updateSettings s p).isRunning = false ∧
    (updateSettings s p).isFocus = s.isFocus ∧
    (updateSettings s p).sessionCount = s.sessionCount := by
  simp [updateSettings, h]

/-- C10 witness: changing only `breakDuration` while the default state sits
in a Break phase keeps `timeLeft` and stops the timer. -/
theorem c10_update_without_focus_duration_is_frame_witness :
    (updateSettings (handleTimerComplete initState)
      { focusDuration := none, breakDuration := some 10,
        longBreakDuration := none, longBreakInterval := none }).timeLeft
      = (handleTimerComplete initState).timeLeft ∧
    (updateSettings (handleTimerComplete initState)
      { focusDuration := none, breakDuration := some 10,
        longBreakDuration := none, longBreakInterval := none }).isRunning = false ∧
    (updateSettings (handleTimerComplete initState)
      { focusDuration := none, breakDuration := some 10,
        longBreakDuration := none, longBreakInterval := none }).isFocus
      = (handleTimerComplete initState).isFocus ∧
    (updateSettings (handleTimerComplete initState)
      { focusDuration := none, breakDuration := some 10,
        longBreakDuration := none, longBreakInterval := none }).sessionCount
      = (handleTimerComplete initState).sessionCount :=
  c10_update_without_focus_duration_is_frame (handleTimerComplete initState)
    { focusDuration := none, breakDuration := some 10,
      longBreakDuration := none, longBreakInterval := none } rfl

unseal Rat.mul Rat.add Rat.inv Rat.sub in
/-- C8 counterexample: in the 100-second zero-activity scenario the
distraction detector does return exactly
`["No recent activity", "Extended idle period"]`, but the attention score
computed by the scoring tick is 45, not ≤ 40 (with the page visible and the
window focused, the only applicable penalties cap at 30 + 25). -/
theorem c8_counterexample_score_not_below_40 :
    detectDistractions 100000 c8State = ["No recent activity", "Extended idle period"] ∧
    ¬(c8State.focusScore ≤ 40) := by
  decide

unseal Rat.mul Rat.add Rat.inv Rat.sub in
/-- C8 amended: after 100 seconds with zero activity while visible and
focused, the distraction detector returns exactly the two flags
`"No recent activity"` and `"Extended idle period"`, and the computed
attention score is exactly 45 (hence ≤ 45, the attainable floor in this
configuration). -/
theorem c8_amended_flags_exact_and_score_45 :
    detectDistractions 100000 c8State = ["No recent activity", "Extended idle period"] ∧
    c8State.focusScore = 45 := by
  decide

/-- C7: for every tracker state (hence every sequence of interaction
events, every visibility/focus configuration and every accumulated idle
time) and every tick time, the attention score computed by
`calculateFocusScore` is an integer (the codomain is `Int`, produced by
`Math.round`) lying within `[0, 100]` inclusive. -/
theorem c7_score_always_within_bounds (now : Int) (s : TrackerState) :
    0 ≤ calculateFocusScore now s ∧ calculateFocusScore now s ≤ 100 := by
  simp only [calculateFocusScore]
  omega

/-- C2: recovering a persisted snapshot `{running = true, timeLeft = T,
savedAt = S}` at `now = S + e` seconds later yields
`timeLeft = max 0 (T - e)` and `running = persisted.running && timeLeft > 0`;
and when the recovered `timeLeft` is 0, the completion effect performs the
phase-completion transition exactly once: it fires on the recovered state
(not skipped) and is the identity on the resulting state (not
double-applied), since the transition installs a positive countdown. -/
theorem c2_recovery_exactly_once (p : PomodoroState) (S e : Int)
    (_he : 0 ≤ e) (hrun : p.isRunning = true)
    (hb : 0 < p.settings.breakDuration) (hl : 0 < p.settings.longBreakDuration) :
    (recoverState p S (S + 1000 * e)).timeLeft = max 0 (p.timeLeft - e) ∧
    (recoverState p S (S + 1000 * e)).isRunning
      = (p.isRunning && decide (0 < max 0 (p.timeLeft - e))) ∧
    ((recoverState p S (S + 1000 * e)).timeLeft = 0 →
      completionEffect (recoverState p S (S + 1000 * e))
        = handleTimerComplete (recoverState p S (S + 1000 * e)) ∧
      completionEffect (handleTimerComplete (recoverState p S (S + 1000 * e)))
        = handleTimerComplete (recoverState p S (S + 1000 * e))) := by
  have hfd : (S + 1000 * e - S).fdiv 1000 = e := by
    have h1 : S + 1000 * e - S = 1000 * e := by ring
    rw [h1, Int.mul_fdiv_cancel_left _ (by norm_num)]
  have hcalc : calculateRemainingTime p S (S + 1000 * e) = max 0 (p.timeLeft - e) := by
    rw [calculateRemainingTime, hrun, hfd]
    simp
  refine ⟨?_, ?_, ?_⟩
  · simp [recoverState, hcalc]
  · simp [recoverState, hcalc]
  · intro h0
    have ht : (recoverState p S (S + 1000 * e)).timeLeft = 0 := h0
    have hr : (recoverState p S (S + 1000 * e)).isRunning = false := by
      simp only [recoverState, hcalc] at ht ⊢
      simp [ht]
    have hfire : completionEffect (recoverState p S (S + 1000 * e))
        = handleTimerComplete (recoverState p S (S + 1000 * e)) := by
      rw [completionEffect, if_pos ⟨hr, ht⟩]
    refine ⟨hfire, ?_⟩
    have hset : (recoverState p S (S + 1000 * e)).settings = p.settings := rfl
    have hpos : 0 < (handleTimerComplete (recoverState p S (S + 1000 * e))).timeLeft := by
      rw [handleTimerComplete]
      split
      · simpa [hset] using by omega
      · simp only [hset]
        split <;> omega
    rw [completionEffect, if_neg]
    intro hcon
    omega

/-- Snapshot used to witness C2: a running Focus session with 120 seconds
left, saved at time 0 and recovered 600 seconds later. -/
def c2Saved : PomodoroState :=
  { isRunning := true, isFocus := true, timeLeft := 120, sessionCount := 0,
    settings := DEFAULT_SETTINGS }

/-- C2 witness: the recovery theorem applied to a concrete suspended
session whose countdown expired 480 seconds before recovery. -/
theorem c2_recovery_exactly_once_witness :
    (recoverState c2Saved 0 (0 + 1000 * 600)).timeLeft = max 0 (c2Saved.timeLeft - 600) ∧
    (recoverState c2Saved 0 (0 + 1000 * 600)).isRunning
      = (c2Saved.isRunning && decide (0 < max 0 (c2Saved.timeLeft - 600))) ∧
    ((recoverState c2Saved 0 (0 + 1000 * 600)).timeLeft = 0 →
      completionEffect (recoverState c2Saved 0 (0 + 1000 * 600))
        = handleTimerComplete (recoverState c2Saved 0 (0 + 1000 * 600)) ∧
      completionEffect (handleTimerComplete (recoverState c2Saved 0 (0 + 1000 * 600)))
        = handleTimerComplete (recoverState c2Saved 0 (0 + 1000 * 600))) :=
  c2_recovery_exactly_once c2Saved 0 600 (by norm_num) rfl (by decide) (by decide)

/-- C9: `stopTracking` is idempotent — a second call leaves the live score
at 0 with no registered listeners and no pending tick, and produces the
same state a single call would; `startTracking` while already tracking and
`startTimer` while already running are no-ops.  The hypothesis couples the
listener flag to the interval flag, as in the hook, where the listener
cleanup function is stored on the interval handle itself and the two are
created and destroyed together. -/
theorem c9_stop_idempotent_start_noop (s u : TrackerState) (t : PomodoroState) (n1 n2 : Int)
    (hs : s.listenersRegistered = s.intervalActive)
    (hu : u.isTracking = true) (ht : t.isRunning = true) :
    (stopTracking n2 (stopTracking n1 s)).focusScore = 0 ∧
    (stopTracking n2 (stopTracking n1 s)).listenersRegistered = false ∧
    (stopTracking n2 (stopTracking n1 s)).intervalActive = false ∧
    stopTracking n2 (stopTracking n1 s) = stopTracking n2 s ∧
    startTracking n1 u = u ∧
    startTimer t = t := by
  refine ⟨?_, ?_, ?_, ?_, ?_, ?_⟩
  · cases hI : s.intervalActive <;> simp [stopTracking, hI]
  · cases hI : s.intervalActive <;> simp [stopTracking, hI, hs]
  · cases hI : s.intervalActive <;> simp [stopTracking, hI]
  · cases hI : s.intervalActive <;> simp [stopTracking, hI]
  · simp [startTracking, hu]
  · simp [startTimer, ht]

/-- A tracker mid-session, used to witness C9: tracking active with a live
score, pending tick, listeners and accumulated activity. -/
def c9Tracker : TrackerState :=
  { trackerInit 0 with
    isTracking := true, focusScore := 87, intervalActive := true,
    listenersRegistered := true, sessionId := some 4, lastActivityAt := 7000,
    mouseMovements := [6000, 7000], keyPresses := [6500], idleTimeMs := 2000 }

/-- C9 witness: the idempotence theorem applied to the concrete mid-session
tracker and a running timer. -/
theorem c9_stop_idempotent_start_noop_witness :
    (stopTracking 9000 (stopTracking 8000 c9Tracker)).focusScore = 0 ∧
    (stopTracking 9000 (stopTracking 8000 c9Tracker)).listenersRegistered = false ∧
    (stopTracking 9000 (stopTracking 8000 c9Tracker)).intervalActive = false ∧
    stopTracking 9000 (stopTracking 8000 c9Tracker) = stopTracking 9000 c9Tracker ∧
    startTracking 8000 c9Tracker = c9Tracker ∧
    startTimer { initState with isRunning := true } = { initState with isRunning := true } :=
  c9_stop_idempotent_start_noop c9Tracker c9Tracker { initState with isRunning := true }
    8000 9000 rfl rfl rfl

/-- C3 counterexample: the upper bound `timeLeft ≤ phaseDuration * 60`
fails on a reachable state even when every settings update carries only
positive values: skipping the first Focus session enters Break with 300
seconds, and `updateSettings {focusDuration := 50}` then resizes `timeLeft`
to 3000 while the phase is still Break, exceeding both
`breakDuration * 60 = 300` and `longBreakDuration * 60 = 900`. -/
theorem c3_counterexample_upper_bound_fails :
    opValid Op.skip = true ∧
    opValid (Op.update
      { focusDuration := some 50, breakDuration := none,
        longBreakDuration := none, longBreakInterval := none }) = true ∧
    (runOps initState [Op.skip, Op.update
      { focusDuration := some 50, breakDuration := none,
        longBreakDuration := none, longBreakInterval := none }]).isFocus = false ∧
    (runOps initState [Op.skip, Op.update
      { focusDuration := some 50, breakDuration := none,
        longBreakDuration := none, longBreakInterval := none }]).timeLeft = 3000 ∧
    ¬((runOps initState [Op.skip, Op.update
      { focusDuration := some 50, breakDuration := none,
        longBreakDuration := none, longBreakInterval := none }]).timeLeft
        ≤ (runOps initState [Op.skip, Op.update
      { focusDuration := some 50, breakDuration := none,
        longBreakDuration := none, longBreakInterval := none }]).settings.breakDuration * 60) ∧
    ¬((runOps initState [Op.skip, Op.update
      { focusDuration := some 50, breakDuration := none,
        longBreakDuration := none, longBreakInterval := none }]).timeLeft
        ≤ (runOps initState [Op.skip, Op.update
      { focusDuration := some 50, breakDuration := none,
        longBreakDuration := none, longBreakInterval := none }]).settings.longBreakDuration * 60) := by
  decide

/-- Positive settings survive a merge with a positive patch. -/
theorem settingsPos_mergeSettings {st : PomodoroSettings} {p : SettingsPatch}
    (hs : SettingsPos st) (hp : patchPos p = true) : SettingsPos (mergeSettings st p) := by
  obtain ⟨h1, h2, h3⟩ := hs
  simp only [patchPos, Bool.and_eq_true] at hp
  obtain ⟨⟨⟨hf, hb⟩, hl⟩, _⟩ := hp
  refine ⟨?_, ?_, ?_⟩
  · cases hF : p.focusDuration with
    | none => simpa [mergeSettings, hF] using h1
    | some d => rw [hF] at hf; simp only [posOpt, decide_eq_true_eq] at hf; simpa [mergeSettings, hF]
  · cases hB : p.breakDuration with
    | none => simpa [mergeSettings, hB] using h2
    | some d => rw [hB] at hb; simp only [posOpt, decide_eq_true_eq] at hb; simpa [mergeSettings, hB]
  · cases hL : p.longBreakDuration with
    | none => simpa [mergeSettings, hL] using h3
    | some d => rw [hL] at hl; simp only [posOpt, decide_eq_true_eq] at hl; simpa [mergeSettings, hL]

/-- The completion transition preserves the machine invariant. -/
theorem inv_handleTimerComplete {s : PomodoroState} (h : Inv s) : Inv (handleTimerComplete s) := by
  obtain ⟨⟨h1, h2, h3⟩, _⟩ := h
  rw [handleTimerComplete]
  split
  · exact ⟨⟨h1, h2, h3⟩, by simp; omega⟩
  · refine ⟨⟨h1, h2, h3⟩, ?_⟩
    simp only
    split <;> omega

/-- Every valid operation preserves the machine invariant. -/
theorem inv_applyOp {s : PomodoroState} {op : Op} (h : Inv s) (hv : opValid op = true) :
    Inv (applyOp s op) := by
  obtain ⟨⟨h1, h2, h3⟩, h4⟩ := h
  cases op with
  | start =>
      rw [applyOp, startTimer]
      split <;> exact ⟨⟨h1, h2, h3⟩, h4⟩
  | pause =>
      rw [applyOp, pauseTimer]
      split <;> exact ⟨⟨h1, h2, h3⟩, h4⟩
  | reset =>
      refine ⟨⟨h1, h2, h3⟩, ?_⟩
      rw [applyOp, resetTimer]
      simp only
      split <;> omega
  | skip => exact inv_handleTimerComplete ⟨⟨h1, h2, h3⟩, h4⟩
  | tick =>
      rw [applyOp, tickSecond]
      split
      · split
        · exact ⟨⟨h1, h2, h3⟩, by simp⟩
        · exact ⟨⟨h1, h2, h3⟩, by simp; omega⟩
      · exact ⟨⟨h1, h2, h3⟩, h4⟩
  | update p =>
      rw [opValid] at hv
      refine ⟨settingsPos_mergeSettings ⟨h1, h2, h3⟩ hv, ?_⟩
      rw [applyOp, updateSettings]
      simp only
      cases hF : p.focusDuration with
      | none => exact h4
      | some d =>
          simp only [patchPos, Bool.and_eq_true] at hv
          have hf := hv.1.1.1
          rw [hF] at hf
          simp only [posOpt, decide_eq_true_eq] at hf
          simp only
          split <;> [omega; exact h4]
  | recover e =>
      rw [applyOp, recoverState]
      refine ⟨⟨h1, h2, h3⟩, ?_⟩
      simp only [calculateRemainingTime]
      split
      · exact h4
      · exact le_max_left 0 _
  | complete =>
      rw [applyOp, completionEffect]
      split
      · exact inv_handleTimerComplete ⟨⟨h1, h2, h3⟩, h4⟩
      · exact ⟨⟨h1, h2, h3⟩, h4⟩

/-- The invariant holds along every valid operation sequence. -/
theorem inv_runOps {s : PomodoroState} (h : Inv s) :
    ∀ {ops : List Op}, (∀ op ∈ ops, opValid op = true) → Inv (runOps s ops) := by
  intro ops
  induction ops generalizing s with
  | nil => intro _; exact h
  | cons op rest ih =>
      intro hv
      have hstep : Inv (applyOp s op) := inv_applyOp h (hv op (by simp))
      have := ih hstep (fun o ho => hv o (by simp [ho]))
      simpa [runOps, List.foldl] using this

/-- The default initial state satisfies the machine invariant. -/
theorem inv_initState : Inv initState := by
  refine ⟨⟨?_, ?_, ?_⟩, ?_⟩ <;> norm_num [initState, DEFAULT_SETTINGS]

/-- A single operation changes `sessionCount` only by a Focus→Break
completion, and then by exactly one. -/
theorem sessionCount_step (s : PomodoroState) (op : Op)
    (h : (applyOp s op).sessionCount ≠ s.sessionCount) :
    s.isFocus = true ∧ (applyOp s op).isFocus = false ∧
      (applyOp s op).sessionCount = s.sessionCount + 1 := by
  cases op with
  | start => rw [applyOp, startTimer] at h ⊢; split at h <;> simp_all
  | pause => rw [applyOp, pauseTimer] at h ⊢; split at h <;> simp_all
  | reset => rw [applyOp, resetTimer] at h; simp at h
  | skip =>
      rw [applyOp, handleTimerComplete] at h ⊢
      split at h <;> rename_i hf
      · simp_all
      · simp at h
  | tick =>
      rw [applyOp, tickSecond] at h ⊢
      split at h
      · split at h <;> simp_all
      · simp_all
  | update p => rw [applyOp, updateSettings] at h; simp at h
  | recover e => rw [applyOp, recoverState] at h; simp at h
  | complete =>
      rw [applyOp, completionEffect] at h ⊢
      split at h <;> rename_i hc
      · rw [if_pos hc]
        rw [handleTimerComplete] at h ⊢
        split at h <;> rename_i hf
        · simp_all
        · simp at h
      · simp at h

/-- C3 amended: along every sequence of start, pause, reset, skip,
updateSettings, tick, recovery (clock skew included) and completion
operations whose settings updates carry only positive values,
`0 ≤ timeLeftSeconds` holds at every reachable state, and `sessionCount`
changes only when a Focus phase transitions to Break, where it increments
by exactly one.  (The claimed upper bound `timeLeft ≤ phaseDuration * 60`
is dropped: the counterexample shows it false.) -/
theorem c3_amended_lower_bound_and_count (ops : List Op)
    (hops : ∀ op ∈ ops, opValid op = true)
    (s : PomodoroState) (op : Op)
    (hc : (applyOp s op).sessionCount ≠ s.sessionCount) :
    0 ≤ (runOps initState ops).timeLeft ∧
    s.isFocus = true ∧ (applyOp s op).isFocus = false ∧
      (applyOp s op).sessionCount = s.sessionCount + 1 :=
  ⟨(inv_runOps inv_initState hops).2, sessionCount_step s op hc⟩

/-- C3 witness: the amended invariant applied to a concrete valid trace
(start, three ticks, a positive settings update, skip, recovery) and to the
concrete count-incrementing step `skip` from the initial Focus state. -/
theorem c3_amended_lower_bound_and_count_witness :
    0 ≤ (runOps initState [Op.start, Op.tick, Op.tick, Op.tick,
      Op.update { focusDuration := some 30, breakDuration := some 10,
                  longBreakDuration := none, longBreakInterval := none },
      Op.skip, Op.recover 5000]).timeLeft ∧
    initState.isFocus = true ∧ (applyOp initState Op.skip).isFocus = false ∧
      (applyOp initState Op.skip).sessionCount = initState.sessionCount + 1 :=
  c3_amended_lower_bound_and_count
    [Op.start, Op.tick, Op.tick, Op.tick,
      Op.update { focusDuration := some 30, breakDuration := some 10,
                  longBreakDuration := none, longBreakInterval := none },
      Op.skip, Op.recover 5000]
    (by decide) initState Op.skip (by decide)

end LockedIn
